import Mathlib

/-!
Verification of the risk-and-reserve analytics core of the
Risk-Policy-Analytics-Dashboard repository.

The definitions below are a shallow embedding of the Python source
(reserve_monitoring.py and data_etl_analysis.py).  Pandas float cells are
modelled by the type FloatVal (a finite rational, an infinity, or NaN for a
missing value); machine floats are idealised as exact rationals, while the
special values produced by division are modelled exactly as numpy produces
them.  Money amounts, scores and multipliers are rationals; row tables are
lists of records.
-/

namespace RiskPolicy

/-- Model of one pandas float cell: a finite rational number, positive or
negative infinity, or NaN (also the representation of a missing value). -/
inductive FloatVal where
  | fin (q : ℚ)
  | inf
  | ninf
  | nan
deriving DecidableEq, Repr

/-- Division of float cells as numpy performs it with warnings suppressed:
a nonzero finite value divided by zero gives a signed infinity, zero divided
by zero gives NaN, and NaN propagates through every operation. -/
def floatDiv : FloatVal → FloatVal → FloatVal
  | .fin a, .fin b =>
      if b = 0 then (if a = 0 then .nan else if 0 < a then .inf else .ninf)
      else .fin (a / b)
  | .fin _, .inf => .fin 0
  | .fin _, .ninf => .fin 0
  | .inf, .fin b => if 0 ≤ b then .inf else .ninf
  | .ninf, .fin b => if 0 ≤ b then .ninf else .inf
  | _, _ => .nan

/-- Model of the pandas fillna(0) call on a float column: NaN cells become
zero, every other cell (infinities included) is unchanged. -/
def fillna0 : FloatVal → FloatVal
  | .nan => .fin 0
  | v => v

/-- Lift of an optional rational (a possibly missing numeric cell) into the
float-cell model: a missing cell is NaN. -/
def ofCell : Option ℚ → FloatVal
  | none => .nan
  | some q => .fin q

/-- One policy row after the imputation pass of load_and_prepare_data
(reserve_monitoring.py, lines 24 to 57): the fields read by the risk scorer
and by the loss-ratio computation.  Age, Health Score, Credit Score and
Previous Claims have been imputed upstream and are plain rationals;
Premium Amount is never imputed by the pipeline, so it stays optional. -/
structure PolicyRecord where
  age : ℚ
  healthScore : ℚ
  creditScore : ℚ
  previousClaims : ℚ
  smokingStatus : String
  exerciseFrequency : String
  premiumAmount : Option ℚ
deriving DecidableEq, Repr

/-- Embedding of the per-row body of the method calculate_risk_score of
reserve_monitoring.py (lines 59 to 100): six additive contributions from
age, claims history, health score, credit score, smoking status and
exercise frequency. -/
def calculate_risk_score (r : PolicyRecord) : ℤ :=
  (if r.age < 25 ∨ 65 < r.age then 2
   else if 25 ≤ r.age ∧ r.age ≤ 35 then 1 else 0)
  + (if 2 < r.previousClaims then 3
     else if 0 < r.previousClaims then 1 else 0)
  + (if r.healthScore < 20 then 2
     else if r.healthScore < 40 then 1 else 0)
  + (if r.creditScore < 500 then 2
     else if r.creditScore < 650 then 1 else 0)
  + (if r.smokingStatus = "Yes" then 2 else 0)
  + (if r.exerciseFrequency = "Rarely" then 1 else 0)

/-- Embedding of the method categorize_risk of reserve_monitoring.py
(lines 102 to 111): the risk band of a score. -/
def categorize_risk (score : ℤ) : String :=
  if score ≤ 2 then "Low"
  else if score ≤ 4 then "Medium"
  else if score ≤ 6 then "High"
  else "Very High"

/-- Embedding of the per-row body of the method calculate_risk_category of
data_etl_analysis.py (lines 105 to 154): the near-duplicate copy that
computes the score and the band in one pass. -/
def calculate_risk_category (r : PolicyRecord) : String :=
  let score : ℤ :=
    (if r.age < 25 ∨ 65 < r.age then 2
     else if 25 ≤ r.age ∧ r.age ≤ 35 then 1 else 0)
    + (if 2 < r.previousClaims then 3
       else if 0 < r.previousClaims then 1 else 0)
    + (if r.healthScore < 20 then 2
       else if r.healthScore < 40 then 1 else 0)
    + (if r.creditScore < 500 then 2
       else if r.creditScore < 650 then 1 else 0)
    + (if r.smokingStatus = "Yes" then 2 else 0)
    + (if r.exerciseFrequency = "Rarely" then 1 else 0)
  if score ≤ 2 then "Low"
  else if score ≤ 4 then "Medium"
  else if score ≤ 6 then "High"
  else "Very High"

/-- The Risk Category column of the enriched table (reserve_monitoring.py,
lines 45 to 46): the band of the risk score of the row. -/
def risk_category (r : PolicyRecord) : String :=
  categorize_risk (calculate_risk_score r)

/-- Spec section 4.1, age rule, stated with disjoint intervals as the spec
words it: age below 25 or above 65 adds 2, age in the closed interval from
25 to 35 adds 1, otherwise 0. -/
def spec_age_points (a : ℚ) : ℤ :=
  if a < 25 ∨ 65 < a then 2 else if 25 ≤ a ∧ a ≤ 35 then 1 else 0

/-- Spec section 4.1, claims rule: more than 2 previous claims adds 3, a
count in the half-open interval from 0 exclusive to 2 inclusive adds 1,
otherwise 0. -/
def spec_claims_points (c : ℚ) : ℤ :=
  if 2 < c then 3 else if 0 < c ∧ c ≤ 2 then 1 else 0

/-- Spec section 4.1, health rule: a health score below 20 adds 2, one in
the interval from 20 inclusive to 40 exclusive adds 1, otherwise 0. -/
def spec_health_points (h : ℚ) : ℤ :=
  if h < 20 then 2 else if 20 ≤ h ∧ h < 40 then 1 else 0

/-- Spec section 4.1, credit rule: a credit score below 500 adds 2, one in
the interval from 500 inclusive to 650 exclusive adds 1, otherwise 0. -/
def spec_credit_points (c : ℚ) : ℤ :=
  if c < 500 then 2 else if 500 ≤ c ∧ c < 650 then 1 else 0

/-- Spec section 4.1, smoking rule. -/
def spec_smoking_points (s : String) : ℤ := if s = "Yes" then 2 else 0

/-- Spec section 4.1, exercise rule. -/
def spec_exercise_points (e : String) : ℤ := if e = "Rarely" then 1 else 0

/-- Spec section 4.1, category mapping from the total score. -/
def spec_category_of_score (s : ℤ) : String :=
  if s ≤ 2 then "Low"
  else if s ≤ 4 then "Medium"
  else if s ≤ 6 then "High"
  else "Very High"

/-- Numeric rank of a risk band, used to state monotonicity of the band in
the score. -/
def category_rank (c : String) : ℕ :=
  if c = "Low" then 0 else if c = "Medium" then 1 else if c = "High" then 2 else 3

lemma claims_points_eq (c : ℚ) :
    (if 2 < c then (3 : ℤ) else if 0 < c then 1 else 0) = spec_claims_points c := by
  by_cases h1 : 2 < c
  · simp [spec_claims_points, h1]
  · by_cases h2 : 0 < c
    · have h3 : 0 < c ∧ c ≤ 2 := ⟨h2, by linarith⟩
      simp [spec_claims_points, h1, h2, h3]
    · have h3 : ¬(0 < c ∧ c ≤ 2) := fun hc => h2 hc.1
      simp [spec_claims_points, h1, h2, h3]

lemma health_points_eq (h : ℚ) :
    (if h < 20 then (2 : ℤ) else if h < 40 then 1 else 0) = spec_health_points h := by
  by_cases h1 : h < 20
  · simp [spec_health_points, h1]
  · by_cases h2 : h < 40
    · have h3 : 20 ≤ h ∧ h < 40 := ⟨by linarith, h2⟩
      simp [spec_health_points, h1, h2, h3]
    · have h3 : ¬(20 ≤ h ∧ h < 40) := fun hc => h2 hc.2
      simp [spec_health_points, h1, h2, h3]

lemma credit_points_eq (c : ℚ) :
    (if c < 500 then (2 : ℤ) else if c < 650 then 1 else 0) = spec_credit_points c := by
  by_cases h1 : c < 500
  · simp [spec_credit_points, h1]
  · by_cases h2 : c < 650
    · have h3 : 500 ≤ c ∧ c < 650 := ⟨by linarith, h2⟩
      simp [spec_credit_points, h1, h2, h3]
    · have h3 : ¬(500 ≤ c ∧ c < 650) := fun hc => h2 hc.2
      simp [spec_credit_points, h1, h2, h3]

lemma category_rank_categorize (s : ℤ) :
    category_rank (categorize_risk s) =
      if s ≤ 2 then 0 else if s ≤ 4 then 1 else if s ≤ 6 then 2 else 3 := by
  unfold categorize_risk
  split_ifs <;> decide

lemma score_update_claims (r : PolicyRecord) (c : ℚ) :
    calculate_risk_score { r with previousClaims := c } =
      calculate_risk_score { r with previousClaims := 0 }
        + (if 2 < c then 3 else if 0 < c then 1 else 0) := by
  unfold calculate_risk_score
  norm_num
  ring

/-- C2: for every policy record the risk score is the additive total of
exactly the six contributions listed in spec section 4.1 (stated there with
disjoint intervals), the risk category is derived from the total score by
the breakpoint mapping of the spec, and the near-duplicate scorer of
data_etl_analysis.py agrees with the one of reserve_monitoring.py. -/
theorem risk_score_additive_decomposition (r : PolicyRecord) :
    calculate_risk_score r =
      spec_age_points r.age + spec_claims_points r.previousClaims
        + spec_health_points r.healthScore + spec_credit_points r.creditScore
        + spec_smoking_points r.smokingStatus + spec_exercise_points r.exerciseFrequency
    ∧ categorize_risk (calculate_risk_score r)
        = spec_category_of_score (calculate_risk_score r)
    ∧ calculate_risk_category r = categorize_risk (calculate_risk_score r) := by
  refine ⟨?_, rfl, rfl⟩
  unfold calculate_risk_score
  rw [claims_points_eq, health_points_eq, credit_points_eq]
  rfl

/-- C6: every risk score is a non-negative integer at most 13, and the risk
category is a monotone non-decreasing step function of the score whose
steps sit exactly at the breakpoints 2, 4 and 6. -/
theorem risk_score_bounded_and_category_monotone (r : PolicyRecord) :
    0 ≤ calculate_risk_score r ∧ calculate_risk_score r ≤ 13
    ∧ (∀ s t : ℤ, s ≤ t →
        category_rank (categorize_risk s) ≤ category_rank (categorize_risk t))
    ∧ (∀ s : ℤ, categorize_risk s ≠ categorize_risk (s + 1) ↔ s = 2 ∨ s = 4 ∨ s = 6) := by
  refine ⟨?_, ?_, ?_, ?_⟩
  · unfold calculate_risk_score
    split_ifs <;> norm_num
  · unfold calculate_risk_score
    split_ifs <;> norm_num
  · intro s t hst
    rw [category_rank_categorize, category_rank_categorize]
    split_ifs <;> omega
  · intro s
    unfold categorize_risk
    split_ifs <;> first
      | (exfalso; omega)
      | exact iff_of_true (by decide) (by omega)
      | exact iff_of_false (by decide) (by omega)

/-- Witness for C6 at a concrete record and concrete scores. -/
theorem risk_score_bounded_witness :
    0 ≤ calculate_risk_score ⟨30, 50, 700, 0, "No", "Daily", some 100⟩
    ∧ calculate_risk_score ⟨30, 50, 700, 0, "No", "Daily", some 100⟩ ≤ 13
    ∧ category_rank (categorize_risk 1) ≤ category_rank (categorize_risk 5)
    ∧ (categorize_risk 2 ≠ categorize_risk (2 + 1) ↔ (2:ℤ) = 2 ∨ (2:ℤ) = 4 ∨ (2:ℤ) = 6) := by
  have h := risk_score_bounded_and_category_monotone ⟨30, 50, 700, 0, "No", "Daily", some 100⟩
  exact ⟨h.1, h.2.1, h.2.2.1 1 5 (by norm_num), h.2.2.2 2⟩

/-- C10: the risk score is monotone non-decreasing in the number of previous
claims with all other fields fixed, and the claims contribution steps by 1
at zero claims and by a further 2 above two claims. -/
theorem risk_score_monotone_in_claims (r : PolicyRecord) (c1 c2 : ℚ) :
    (c1 ≤ c2 →
      calculate_risk_score { r with previousClaims := c1 }
        ≤ calculate_risk_score { r with previousClaims := c2 })
    ∧ calculate_risk_score { r with previousClaims := (1 : ℚ) }
        = calculate_risk_score { r with previousClaims := (0 : ℚ) } + 1
    ∧ calculate_risk_score { r with previousClaims := (3 : ℚ) }
        = calculate_risk_score { r with previousClaims := (0 : ℚ) } + 3 := by
  refine ⟨?_, ?_, ?_⟩
  · intro h
    rw [score_update_claims r c1, score_update_claims r c2]
    have hstep : (if 2 < c1 then (3:ℤ) else if 0 < c1 then 1 else 0)
        ≤ (if 2 < c2 then 3 else if 0 < c2 then 1 else 0) := by
      split_ifs <;> linarith
    exact add_le_add_left hstep _
  · rw [score_update_claims r 1]
    norm_num
  · rw [score_update_claims r 3]
    norm_num

/-- Witness for C10 at a concrete record and a concrete pair of claim
counts. -/
theorem risk_score_monotone_in_claims_witness :
    calculate_risk_score ⟨30, 50, 700, 0, "No", "Daily", some 100⟩
      ≤ calculate_risk_score ⟨30, 50, 700, 5, "No", "Daily", some 100⟩ := by
  exact (risk_score_monotone_in_claims ⟨30, 50, 700, 37, "No", "Daily", some 100⟩ 0 5).1
    (by norm_num)

/-- Embedding of the Loss Ratio column computation of load_and_prepare_data
(reserve_monitoring.py, lines 49 to 50): previous claims times 1000 divided
by the premium amount, followed by fillna(0).  The identical computation
appears in data_preprocessing of data_etl_analysis.py, lines 98 to 99. -/
def loss_ratio (r : PolicyRecord) : FloatVal :=
  fillna0 (floatDiv (.fin (r.previousClaims * 1000)) (ofCell r.premiumAmount))

/-- Embedding of reserve_monitoring.py line 136: premium based reserves are
15 percent of total premiums of the category. -/
def premium_based_reserves (totalPremiums : ℚ) : ℚ := totalPremiums * 0.15

/-- Embedding of reserve_monitoring.py line 139: claims based reserves are
three times the claim count valued at 1000 per claim. -/
def claims_based_reserves (totalClaims : ℚ) : ℚ := totalClaims * 1000 * 3

/-- Embedding of reserve_monitoring.py lines 142 to 145: the per-category
risk multiplier, looked up in the dict with default 0.15. -/
def risk_multipliers (category : String) : ℚ :=
  if category = "Low" then 0.10
  else if category = "Medium" then 0.15
  else if category = "High" then 0.25
  else if category = "Very High" then 0.35
  else 0.15

/-- Embedding of reserve_monitoring.py lines 142 to 145: risk adjusted
reserves. -/
def risk_adjusted_reserves (totalPremiums : ℚ) (category : String) : ℚ :=
  totalPremiums * risk_multipliers category

/-- Embedding of reserve_monitoring.py line 148: IBNR reserves are 5 percent
of total premiums. -/
def ibnr_reserves (totalPremiums : ℚ) : ℚ := totalPremiums * 0.05

/-- Embedding of reserve_monitoring.py lines 150 to 153: the row-wise max
over the four candidate reserve columns. -/
def total_required_reserves (totalPremiums totalClaims : ℚ) (category : String) : ℚ :=
  max (max (max (premium_based_reserves totalPremiums)
                (claims_based_reserves totalClaims))
           (risk_adjusted_reserves totalPremiums category))
      (ibnr_reserves totalPremiums)

/-- Embedding of reserve_monitoring.py line 156: actual claims exposure of a
category. -/
def actual_claims_exposure (totalClaims : ℚ) : ℚ := totalClaims * 1000

/-- Embedding of reserve_monitoring.py lines 159 to 161: reserve adequacy of
a category. -/
def reserve_adequacy (totalPremiums totalClaims : ℚ) (category : String) : ℚ :=
  total_required_reserves totalPremiums totalClaims category
    - actual_claims_exposure totalClaims

/-- Embedding of reserve_monitoring.py lines 163 to 166: the reserve ratio
column, an unguarded float division of required reserves by actual claims
exposure. -/
def reserve_ratio (totalPremiums totalClaims : ℚ) (category : String) : FloatVal :=
  floatDiv (.fin (total_required_reserves totalPremiums totalClaims category))
           (.fin (actual_claims_exposure totalClaims))

/-- Spec section 4.4 multiplier table, defined only on the four risk
categories the spec names. -/
def spec_reserve_multiplier (category : String) : Option ℚ :=
  if category = "Low" then some 0.10
  else if category = "Medium" then some 0.15
  else if category = "High" then some 0.25
  else if category = "Very High" then some 0.35
  else none

/-- C1: for every category aggregate, total required reserves equal the
maximum of the four candidate amounts, with the risk-adjusted candidate
using the multiplier of the spec table; the total is therefore at least
each candidate, and it is not the sum or the average of the candidates
(witnessed by an aggregate where max, sum and average all differ). -/
theorem total_required_reserves_is_max (tp tc : ℚ) (category : String) (m : ℚ)
    (hm : spec_reserve_multiplier category = some m) :
    total_required_reserves tp tc category
        = max (max (max (tp * 0.15) (tc * 1000 * 3)) (tp * m)) (tp * 0.05)
    ∧ tp * 0.15 ≤ total_required_reserves tp tc category
    ∧ tc * 1000 * 3 ≤ total_required_reserves tp tc category
    ∧ tp * m ≤ total_required_reserves tp tc category
    ∧ tp * 0.05 ≤ total_required_reserves tp tc category
    ∧ (∃ tp0 tc0 : ℚ,
        total_required_reserves tp0 tc0 "Low"
            ≠ premium_based_reserves tp0 + claims_based_reserves tc0
                + risk_adjusted_reserves tp0 "Low" + ibnr_reserves tp0
        ∧ total_required_reserves tp0 tc0 "Low"
            ≠ (premium_based_reserves tp0 + claims_based_reserves tc0
                + risk_adjusted_reserves tp0 "Low" + ibnr_reserves tp0) / 4) := by
  have hmul : risk_multipliers category = m := by
    unfold spec_reserve_multiplier at hm
    unfold risk_multipliers
    split_ifs at hm ⊢ <;> simp_all
  have hmax : total_required_reserves tp tc category
      = max (max (max (tp * 0.15) (tc * 1000 * 3)) (tp * m)) (tp * 0.05) := by
    unfold total_required_reserves premium_based_reserves claims_based_reserves
      risk_adjusted_reserves ibnr_reserves
    rw [hmul]
  refine ⟨hmax, ?_, ?_, ?_, ?_, ?_⟩
  · rw [hmax]
    exact le_trans (le_max_left _ _) (le_trans (le_max_left _ _) (le_max_left _ _))
  · rw [hmax]
    exact le_trans (le_max_right _ _) (le_trans (le_max_left _ _) (le_max_left _ _))
  · rw [hmax]
    exact le_trans (le_max_right _ _) (le_max_left _ _)
  · rw [hmax]
    exact le_max_right _ _
  · refine ⟨100, 1, ?_, ?_⟩ <;>
      · unfold total_required_reserves premium_based_reserves claims_based_reserves
          risk_adjusted_reserves ibnr_reserves risk_multipliers
        norm_num

/-- Witness for C1: the concrete aggregate of spec section 8, a Low category
with 100000 of premiums and 40 claims, where the claims based candidate
120000 dominates. -/
theorem total_required_reserves_is_max_witness :
    total_required_reserves 100000 40 "Low"
        = max (max (max ((100000 : ℚ) * 0.15) ((40 : ℚ) * 1000 * 3)) ((100000 : ℚ) * 0.10))
              ((100000 : ℚ) * 0.05)
    ∧ (40 : ℚ) * 1000 * 3 ≤ total_required_reserves 100000 40 "Low" := by
  have h := total_required_reserves_is_max 100000 40 "Low" 0.10 (by norm_num [spec_reserve_multiplier])
  exact ⟨h.1, h.2.2.1⟩

/-- C5 counterexample: a category aggregate with zero premiums and zero
claims has zero exposure, and the unguarded reserve ratio there is NaN, not
an infinity sentinel and not a flagged state. -/
theorem reserve_ratio_nan_counterexample :
    actual_claims_exposure 0 = 0
    ∧ reserve_ratio 0 0 "Low" = FloatVal.nan
    ∧ FloatVal.nan ≠ FloatVal.inf := by
  refine ⟨by norm_num [actual_claims_exposure], ?_, by decide⟩
  unfold reserve_ratio total_required_reserves premium_based_reserves
    claims_based_reserves risk_adjusted_reserves ibnr_reserves risk_multipliers
    actual_claims_exposure floatDiv
  norm_num

/-- C5 amended: the reserve ratio is an unguarded float division, so with
zero exposure it is the infinity value exactly when the required reserves
are positive, it is NaN when the required reserves are also zero, and with
nonzero exposure it is the finite quotient. -/
theorem reserve_ratio_zero_exposure_behavior (tp tc : ℚ) (category : String) :
    (tc = 0 → 0 < total_required_reserves tp tc category →
      reserve_ratio tp tc category = FloatVal.inf)
    ∧ (tc = 0 → total_required_reserves tp tc category = 0 →
      reserve_ratio tp tc category = FloatVal.nan)
    ∧ (tc ≠ 0 →
      reserve_ratio tp tc category
        = FloatVal.fin (total_required_reserves tp tc category
            / actual_claims_exposure tc)) := by
  refine ⟨?_, ?_, ?_⟩
  · intro h0 hpos
    subst h0
    unfold reserve_ratio actual_claims_exposure floatDiv
    norm_num
    rw [if_neg (ne_of_gt hpos), if_pos hpos]
  · intro h0 hzero
    subst h0
    unfold reserve_ratio actual_claims_exposure floatDiv
    rw [hzero]
    norm_num
  · intro hne
    unfold reserve_ratio actual_claims_exposure floatDiv
    have hminor : tc * 1000 ≠ 0 := mul_ne_zero hne (by norm_num)
    simp [hminor]

/-- Witness for C5 amended: a Low category with 100 of premiums and no
claims has required reserves 15, and its reserve ratio is the infinity
value. -/
theorem reserve_ratio_zero_exposure_witness :
    reserve_ratio 100 0 "Low" = FloatVal.inf := by
  refine (reserve_ratio_zero_exposure_behavior 100 0 "Low").1 rfl ?_
  unfold total_required_reserves premium_based_reserves claims_based_reserves
    risk_adjusted_reserves ibnr_reserves risk_multipliers
  norm_num

/-- C4 counterexample: a record with premium amount exactly zero and one
previous claim has loss ratio equal to the infinity value, not zero. -/
theorem loss_ratio_zero_premium_counterexample :
    loss_ratio ⟨30, 50, 700, 1, "No", "Daily", some 0⟩ = FloatVal.inf
    ∧ FloatVal.inf ≠ FloatVal.fin 0 := by
  refine ⟨?_, by decide⟩
  unfold loss_ratio ofCell floatDiv fillna0
  norm_num

/-- C4 amended: the loss ratio is zero when the premium amount is missing,
and zero when the premium amount is zero with zero previous claims; but
with a zero premium amount and positive previous claims it is the infinity
value (the float division is only NaN-filled, infinities pass through); and
with any nonzero premium amount it is the finite quotient of previous
claims times 1000 by the premium amount. -/
theorem loss_ratio_cases (r : PolicyRecord) :
    (r.premiumAmount = none → loss_ratio r = FloatVal.fin 0)
    ∧ (r.premiumAmount = some 0 → r.previousClaims = 0 →
        loss_ratio r = FloatVal.fin 0)
    ∧ (r.premiumAmount = some 0 → 0 < r.previousClaims →
        loss_ratio r = FloatVal.inf)
    ∧ (∀ p : ℚ, r.premiumAmount = some p → p ≠ 0 →
        loss_ratio r = FloatVal.fin (r.previousClaims * 1000 / p)) := by
  refine ⟨?_, ?_, ?_, ?_⟩
  · intro hp
    unfold loss_ratio ofCell
    rw [hp]
    rfl
  · intro hp hc
    unfold loss_ratio ofCell
    rw [hp, hc]
    norm_num [floatDiv, fillna0]
  · intro hp hc
    unfold loss_ratio ofCell
    rw [hp]
    have h1 : r.previousClaims * 1000 ≠ 0 := by positivity
    have h2 : 0 < r.previousClaims * 1000 := by positivity
    simp [floatDiv, fillna0, h1, h2]
  · intro p hp hpne
    unfold loss_ratio ofCell
    rw [hp]
    simp [floatDiv, fillna0, hpne]

/-- Witness for C4 amended: concrete records exercising each premium case.
A record with a missing premium has ratio zero, and a record with premium 4
and one previous claim has the finite ratio 250. -/
theorem loss_ratio_cases_witness :
    loss_ratio ⟨30, 50, 700, 1, "No", "Daily", none⟩ = FloatVal.fin 0
    ∧ loss_ratio ⟨30, 50, 700, 1, "No", "Daily", some 4⟩ = FloatVal.fin 250 := by
  constructor
  · exact (loss_ratio_cases ⟨30, 50, 700, 1, "No", "Daily", none⟩).1 rfl
  · have h := (loss_ratio_cases ⟨30, 50, 700, 1, "No", "Daily", some 4⟩).2.2.2 4 rfl
      (by norm_num)
    rw [h]
    norm_num

/-- One stress scenario of perform_stress_testing (reserve_monitoring.py,
lines 189 to 220): a name, the two multipliers and a description. -/
structure StressScenario where
  scenarioName : String
  claims_multiplier : ℚ
  premium_multiplier : ℚ
  description : String
deriving DecidableEq, Repr

/-- Embedding of the scenario dict of reserve_monitoring.py, lines 189 to
220, in insertion order. -/
def stress_scenarios : List StressScenario :=
  [ ⟨"Base Case", 1.0, 1.0, "Current baseline scenario"⟩,
    ⟨"Mild Stress", 1.2, 1.0, "20% increase in claims frequency"⟩,
    ⟨"Moderate Stress", 1.5, 1.0, "50% increase in claims frequency"⟩,
    ⟨"Severe Stress", 2.0, 1.0, "100% increase in claims frequency"⟩,
    ⟨"Economic Downturn", 1.8, 0.9, "Economic downturn with reduced premiums"⟩,
    ⟨"Catastrophic Event", 3.0, 1.0, "Catastrophic event scenario"⟩ ]

/-- One row of the stress test result table (reserve_monitoring.py, lines
238 to 251). -/
structure StressResult where
  scenario : String
  claimsMultiplier : ℚ
  premiumMultiplier : ℚ
  totalPremiums : ℚ
  totalClaims : ℚ
  lossRatio : FloatVal
  requiredReserves : ℚ
  actualClaimsExposure : ℚ
  capitalAdequacy : ℚ
  capitalRatio : ℚ
  adequacyStatus : String
deriving DecidableEq, Repr

/-- Embedding of the loop body of perform_stress_testing
(reserve_monitoring.py, lines 224 to 251), evaluated on the portfolio base
metrics total premiums and total claims. -/
def stress_result (tp tc : ℚ) (s : StressScenario) : StressResult :=
  let stressed_claims := tc * s.claims_multiplier
  let stressed_premiums := tp * s.premium_multiplier
  let required_reserves := stressed_premiums * 0.15
  let exposure := stressed_claims * 1000
  let capital_adequacy := required_reserves - exposure
  { scenario := s.scenarioName
    claimsMultiplier := s.claims_multiplier
    premiumMultiplier := s.premium_multiplier
    totalPremiums := stressed_premiums
    totalClaims := stressed_claims
    lossRatio := floatDiv (.fin (stressed_claims * 1000)) (.fin stressed_premiums)
    requiredReserves := required_reserves
    actualClaimsExposure := exposure
    capitalAdequacy := capital_adequacy
    capitalRatio := if 0 < exposure then required_reserves / exposure else 0
    adequacyStatus := if 0 ≤ capital_adequacy then "Adequate" else "Inadequate" }

/-- Embedding of perform_stress_testing (reserve_monitoring.py, lines 171
to 254): the six scenario rows for a portfolio with the given total
premiums and total claims. -/
def perform_stress_testing (tp tc : ℚ) : List StressResult :=
  stress_scenarios.map (stress_result tp tc)

/-- C3: the stress tester runs exactly the six catalog scenarios with the
listed multiplier pairs; every row uses the premium-based-only reserve
formula on the stressed premiums, exposure is stressed claims valued at
1000 each, adequacy is their difference and is classified Adequate exactly
when non-negative; and the stress formula is not the four-way maximum of
the steady-state engine (witnessed by a portfolio where they differ for
every category). -/
theorem stress_testing_premium_based_only (tp tc : ℚ) :
    (perform_stress_testing tp tc).map
        (fun r => (r.scenario, r.claimsMultiplier, r.premiumMultiplier))
      = [("Base Case", 1.0, 1.0), ("Mild Stress", 1.2, 1.0),
         ("Moderate Stress", 1.5, 1.0), ("Severe Stress", 2.0, 1.0),
         ("Economic Downturn", 1.8, 0.9), ("Catastrophic Event", 3.0, 1.0)]
    ∧ (∀ r ∈ perform_stress_testing tp tc,
        r.totalPremiums = tp * r.premiumMultiplier
        ∧ r.totalClaims = tc * r.claimsMultiplier
        ∧ r.requiredReserves = r.totalPremiums * 0.15
        ∧ r.actualClaimsExposure = tc * r.claimsMultiplier * 1000
        ∧ r.capitalAdequacy = r.requiredReserves - r.actualClaimsExposure
        ∧ (r.adequacyStatus = "Adequate" ↔ 0 ≤ r.capitalAdequacy)
        ∧ (r.adequacyStatus = "Inadequate" ↔ r.capitalAdequacy < 0))
    ∧ (∃ tp0 tc0 : ℚ, ∃ s ∈ stress_scenarios, ∀ category : String,
        (stress_result tp0 tc0 s).requiredReserves
          ≠ total_required_reserves (stress_result tp0 tc0 s).totalPremiums
              (stress_result tp0 tc0 s).totalClaims category) := by
  refine ⟨by simp [perform_stress_testing, stress_scenarios, stress_result], ?_, ?_⟩
  · intro r hr
    simp only [perform_stress_testing, List.mem_map] at hr
    obtain ⟨s, _, rfl⟩ := hr
    refine ⟨rfl, rfl, rfl, rfl, rfl, ?_, ?_⟩
    · show (if 0 ≤ tp * s.premium_multiplier * 0.15 - tc * s.claims_multiplier * 1000
          then "Adequate" else "Inadequate") = "Adequate" ↔ _
      split_ifs with h
      · exact iff_of_true rfl h
      · exact iff_of_false (by decide) h
    · show (if 0 ≤ tp * s.premium_multiplier * 0.15 - tc * s.claims_multiplier * 1000
          then "Adequate" else "Inadequate") = "Inadequate" ↔ _
      split_ifs with h
      · exact iff_of_false (by decide) (not_lt.mpr h)
      · exact iff_of_true rfl (not_le.mp h)
  · refine ⟨0, 1, ⟨"Base Case", 1.0, 1.0, "Current baseline scenario"⟩, by simp [stress_scenarios], ?_⟩
    intro category
    unfold stress_result total_required_reserves premium_based_reserves
      claims_based_reserves risk_adjusted_reserves ibnr_reserves
    simp only []
    norm_num

/-- Witness for C3 at a concrete portfolio, with the per-row facts
instantiated at the Severe Stress row of spec section 8. -/
theorem stress_testing_premium_based_only_witness :
    (stress_result 1000000 300
        ⟨"Severe Stress", 2.0, 1.0, "100% increase in claims frequency"⟩).requiredReserves
      = (stress_result 1000000 300
          ⟨"Severe Stress", 2.0, 1.0, "100% increase in claims frequency"⟩).totalPremiums * 0.15 := by
  have h := (stress_testing_premium_based_only 1000000 300).2.1
    (stress_result 1000000 300 ⟨"Severe Stress", 2.0, 1.0, "100% increase in claims frequency"⟩)
    (by simp [perform_stress_testing, stress_scenarios])
  exact h.2.2.1

/-- C8: the Base Case scenario reproduces the unstressed premium-based
reserve figures of the portfolio exactly. -/
theorem base_case_reproduces_unstressed (tp tc : ℚ) :
    ∀ r ∈ perform_stress_testing tp tc, r.scenario = "Base Case" →
      r.totalPremiums = tp
      ∧ r.totalClaims = tc
      ∧ r.requiredReserves = tp * 0.15
      ∧ r.actualClaimsExposure = tc * 1000
      ∧ r.capitalAdequacy = tp * 0.15 - tc * 1000 := by
  intro r hr hname
  simp only [perform_stress_testing, List.mem_map] at hr
  obtain ⟨s, hs, rfl⟩ := hr
  have hn : s.scenarioName = "Base Case" := hname
  fin_cases hs
  · unfold stress_result
    norm_num
  all_goals exact absurd hn (by decide)

/-- Witness for C8: the Base Case row of a concrete portfolio with premiums
2000 and 30 claims. -/
theorem base_case_reproduces_unstressed_witness :
    (stress_result 2000 30 ⟨"Base Case", 1.0, 1.0, "Current baseline scenario"⟩).requiredReserves
      = (2000 : ℚ) * 0.15 := by
  have h := base_case_reproduces_unstressed 2000 30
    (stress_result 2000 30 ⟨"Base Case", 1.0, 1.0, "Current baseline scenario"⟩)
    (by simp [perform_stress_testing, stress_scenarios]) rfl
  exact h.2.2.1

/-- C9: every stress row guards the capital ratio: if the stressed claims
exposure is zero the capital ratio is zero (no division), and a portfolio
with zero total claims produces zero exposure, hence capital ratio zero, in
every scenario. -/
theorem stress_capital_ratio_guarded (tp tc : ℚ) :
    ∀ r ∈ perform_stress_testing tp tc,
      (r.actualClaimsExposure = 0 → r.capitalRatio = 0)
      ∧ (tc = 0 → r.actualClaimsExposure = 0 ∧ r.capitalRatio = 0) := by
  intro r hr
  simp only [perform_stress_testing, List.mem_map] at hr
  obtain ⟨s, _, rfl⟩ := hr
  constructor
  · intro hz
    unfold stress_result at hz ⊢
    simp only [] at hz ⊢
    rw [hz]
    norm_num
  · intro h0
    subst h0
    unfold stress_result
    norm_num

/-- Witness for C9: the Catastrophic Event row of a claims-free portfolio
has capital ratio zero. -/
theorem stress_capital_ratio_guarded_witness :
    (stress_result 500 0 ⟨"Catastrophic Event", 3.0, 1.0, "Catastrophic event scenario"⟩).capitalRatio
      = 0 := by
  have h := stress_capital_ratio_guarded 500 0
    (stress_result 500 0 ⟨"Catastrophic Event", 3.0, 1.0, "Catastrophic event scenario"⟩)
    (by simp [perform_stress_testing, stress_scenarios])
  exact (h.2 rfl).2

/-- Round half to even, the tie rule pandas round uses, on an idealised
exact rational. -/
def round_half_even (q : ℚ) : ℤ :=
  if q - ⌊q⌋ < 1/2 then ⌊q⌋
  else if 1/2 < q - ⌊q⌋ then ⌊q⌋ + 1
  else if ⌊q⌋ % 2 = 0 then ⌊q⌋ else ⌊q⌋ + 1

/-- Rounding to two decimal places, the round(2) call applied to every
aggregate column on line 128 of reserve_monitoring.py. -/
def round2 (q : ℚ) : ℚ := (round_half_even (q * 100) : ℚ) / 100

/-- The rows of one risk category group, the pandas groupby on the Risk
Category column (reserve_monitoring.py, line 123). -/
def group_rows (rows : List PolicyRecord) (c : String) : List PolicyRecord :=
  rows.filter (fun r => decide (risk_category r = c))

/-- The distinct risk categories observed in the table: the group keys the
pandas groupby produces (groups with no matching row do not appear). -/
def distinct_categories (rows : List PolicyRecord) : List String :=
  (rows.map risk_category).dedup

/-- The Policy Count aggregate of one group: the count aggregation on the
Premium Amount column (reserve_monitoring.py, line 124).  Pandas count
counts non-null cells only, and Premium Amount is never imputed, so rows
whose premium is missing are not counted. -/
def policy_count (rows : List PolicyRecord) (c : String) : ℕ :=
  ((group_rows rows c).filter (fun r => r.premiumAmount.isSome)).length

/-- The Total Premiums aggregate of one group before rounding: the pandas
sum of the Premium Amount column, missing cells skipped (summed as zero). -/
def group_total_premiums (rows : List PolicyRecord) (c : String) : ℚ :=
  ((group_rows rows c).map (fun r => r.premiumAmount.getD 0)).sum

/-- The Total Premiums value stored in the reserve analysis table: the
group sum rounded to two decimals by the round(2) call on line 128. -/
def stored_total_premiums (rows : List PolicyRecord) (c : String) : ℚ :=
  round2 (group_total_premiums rows c)

/-- The portfolio total premium: the pandas sum of the Premium Amount
column over the whole table (reserve_monitoring.py, line 182). -/
def portfolio_total_premiums (rows : List PolicyRecord) : ℚ :=
  (rows.map (fun r => r.premiumAmount.getD 0)).sum

lemma sum_map_filter_or {α M : Type} [AddCommMonoid M] (p q : α → Bool)
    (hpq : ∀ x, ¬(p x = true ∧ q x = true)) (f : α → M) (l : List α) :
    ((l.filter (fun x => p x || q x)).map f).sum
      = ((l.filter p).map f).sum + ((l.filter q).map f).sum := by
  induction l with
  | nil => simp
  | cons a l ih =>
    by_cases hp : p a <;> by_cases hq : q a
    · exact absurd ⟨hp, hq⟩ (hpq a)
    · simp [List.filter_cons, hp, hq, ih, add_assoc]
    · simp [List.filter_cons, hp, hq, ih, add_assoc, add_left_comm]
    · simp [List.filter_cons, hp, hq, ih]

lemma sum_map_filter_partition {α M : Type} [AddCommMonoid M]
    (k : α → String) (f : α → M) (l : List α) (cs : List String) (hnd : cs.Nodup) :
    (cs.map (fun c => ((l.filter (fun a => decide (k a = c))).map f).sum)).sum
      = ((l.filter (fun a => decide (k a ∈ cs))).map f).sum := by
  induction cs with
  | nil => simp
  | cons c cs ih =>
    rcases List.nodup_cons.mp hnd with ⟨hc, hnd2⟩
    have hdis : ∀ a, ¬(decide (k a = c) = true ∧ decide (k a ∈ cs) = true) := by
      intro a ha
      rcases ha with ⟨h1, h2⟩
      rw [decide_eq_true_eq] at h1 h2
      exact hc (h1 ▸ h2)
    have hpred : ∀ a ∈ l,
        (decide (k a ∈ c :: cs)) = (decide (k a = c) || decide (k a ∈ cs)) := by
      intro a _
      calc decide (k a ∈ c :: cs)
          = decide (k a = c ∨ k a ∈ cs) := decide_eq_decide.mpr List.mem_cons
        _ = (decide (k a = c) || decide (k a ∈ cs)) := Bool.decide_or _ _
    calc (((c :: cs).map (fun c => ((l.filter (fun a => decide (k a = c))).map f).sum)).sum)
        = ((l.filter (fun a => decide (k a = c))).map f).sum
            + ((l.filter (fun a => decide (k a ∈ cs))).map f).sum := by
          simp only [List.map_cons, List.sum_cons]
          rw [ih hnd2]
      _ = ((l.filter (fun a => decide (k a = c) || decide (k a ∈ cs))).map f).sum := by
          rw [sum_map_filter_or _ _ hdis f l]
      _ = ((l.filter (fun a => decide (k a ∈ c :: cs))).map f).sum := by
          rw [List.filter_congr hpred]

lemma length_filter_eq_sum_indicator {α : Type} (p : α → Bool) (l : List α) :
    (l.filter p).length = (l.map (fun a => if p a then (1 : ℕ) else 0)).sum := by
  induction l with
  | nil => rfl
  | cons a l ih =>
    rw [List.map_cons, List.sum_cons, List.filter_cons]
    by_cases h : p a
    · rw [if_pos h, if_pos h, List.length_cons, ih, Nat.add_comm]
    · rw [if_neg h, if_neg h, ih, Nat.zero_add]

lemma round_half_even_close (x : ℚ) : |(round_half_even x : ℚ) - x| ≤ 1/2 := by
  have h0 : (⌊x⌋ : ℚ) ≤ x := Int.floor_le x
  have h1 : x < ⌊x⌋ + 1 := Int.lt_floor_add_one x
  unfold round_half_even
  split_ifs with ha hb hcase <;>
    · rw [abs_le]
      push_cast
      constructor <;> linarith

lemma round2_close (q : ℚ) : |round2 q - q| ≤ 1 / 200 := by
  have h := round_half_even_close (q * 100)
  have heq : round2 q - q = ((round_half_even (q * 100) : ℚ) - q * 100) / 100 := by
    unfold round2
    ring
  rw [heq, abs_div]
  rw [div_le_iff₀ (by norm_num : (0:ℚ) < |100|)]
  have : |(100 : ℚ)| = 100 := by norm_num
  rw [this]
  linarith

/-- C7 counterexample: two one-row tables refuting the claimed identities.
With a missing premium the Policy Count of the single group is zero (the
pandas count aggregation counts non-null Premium Amount cells only), so
the per-group counts do not sum to the row count; and with a premium of
one tenth of a cent the stored (rounded) group total is zero, so the
stored per-group Total Premiums do not sum to the portfolio total. -/
theorem aggregation_totals_counterexample :
    ((distinct_categories [⟨30, 50, 700, 0, "No", "Daily", none⟩]).map
        (fun c => policy_count [⟨30, 50, 700, 0, "No", "Daily", none⟩] c)).sum
      ≠ ([⟨30, 50, 700, 0, "No", "Daily", none⟩] : List PolicyRecord).length
    ∧ ((distinct_categories [⟨30, 50, 700, 0, "No", "Daily", some (1/1000)⟩]).map
        (fun c => stored_total_premiums [⟨30, 50, 700, 0, "No", "Daily", some (1/1000)⟩] c)).sum
      ≠ portfolio_total_premiums [⟨30, 50, 700, 0, "No", "Daily", some (1/1000)⟩] := by
  have hs1 : ("No" : String) ≠ "Yes" := by decide
  have hs2 : ("Daily" : String) ≠ "Rarely" := by decide
  constructor
  · have hcat0 : risk_category ⟨30, 50, 700, 0, "No", "Daily", none⟩ = "Low" := by
      unfold risk_category calculate_risk_score categorize_risk
      norm_num [hs1, hs2]
    simp only [distinct_categories, policy_count, group_rows, List.map_cons, List.map_nil,
      hcat0]
    norm_num [List.dedup, List.filter, hcat0]
  · have hcat : risk_category ⟨30, 50, 700, 0, "No", "Daily", some (1/1000)⟩ = "Low" := by
      unfold risk_category calculate_risk_score categorize_risk
      norm_num [hs1, hs2]
    have hfl : ⌊(1 : ℚ)/10⌋ = 0 := by
      rw [Int.floor_eq_iff]
      norm_num
    have hfr : Int.fract ((1 : ℚ)/10) = 1/10 := Int.fract_eq_self.mpr (by norm_num)
    simp only [distinct_categories, stored_total_premiums, group_total_premiums, group_rows,
      portfolio_total_premiums, round2, round_half_even, List.map_cons, List.map_nil, hcat]
    norm_num [List.dedup, List.filter, hcat, hfl, hfr]

/-- C7 amended: the pandas groupby partitions the table, so the per-group
Policy Counts (counts of non-null Premium Amount cells) sum to the number
of rows with a non-missing premium — the full row count exactly when no
premium is missing — and the exact per-group premium sums add up to the
portfolio total premium; every group key observed corresponds to at least
one row and no empty group appears; the stored Total Premiums column,
however, is rounded to two decimals, so each stored group total may differ
from the exact group sum by up to half a cent. -/
theorem aggregation_partitions_rows (rows : List PolicyRecord) :
    ((distinct_categories rows).map (fun c => policy_count rows c)).sum
        = (rows.filter (fun r => r.premiumAmount.isSome)).length
    ∧ ((distinct_categories rows).map (fun c => group_total_premiums rows c)).sum
        = portfolio_total_premiums rows
    ∧ (∀ c, c ∈ distinct_categories rows ↔ ∃ r ∈ rows, risk_category r = c)
    ∧ (∀ c ∈ distinct_categories rows, group_rows rows c ≠ [])
    ∧ (∀ c, |stored_total_premiums rows c - group_total_premiums rows c| ≤ 1 / 200) := by
  have hnd : (distinct_categories rows).Nodup := List.nodup_dedup _
  have hfull : rows.filter (fun a => decide (risk_category a ∈ distinct_categories rows))
      = rows := by
    rw [List.filter_eq_self]
    intro a ha
    rw [decide_eq_true_eq]
    unfold distinct_categories
    rw [List.mem_dedup]
    exact List.mem_map_of_mem risk_category ha
  have hcount : ∀ c, policy_count rows c
      = ((rows.filter (fun a => decide (risk_category a = c))).map
          (fun a => if a.premiumAmount.isSome then (1 : ℕ) else 0)).sum := by
    intro c
    unfold policy_count group_rows
    exact length_filter_eq_sum_indicator _ _
  refine ⟨?_, ?_, ?_, ?_, ?_⟩
  · have h := sum_map_filter_partition risk_category
      (fun a => if a.premiumAmount.isSome then (1 : ℕ) else 0) rows
      (distinct_categories rows) hnd
    rw [hfull] at h
    simp only [hcount]
    rw [h]
    exact (length_filter_eq_sum_indicator _ rows).symm
  · have h := sum_map_filter_partition risk_category (fun r => r.premiumAmount.getD 0) rows
      (distinct_categories rows) hnd
    rw [hfull] at h
    exact h
  · intro c
    unfold distinct_categories
    rw [List.mem_dedup, List.mem_map]
  · intro c hcmem
    unfold distinct_categories at hcmem
    rw [List.mem_dedup, List.mem_map] at hcmem
    rcases hcmem with ⟨r, hr, hrc⟩
    have : r ∈ group_rows rows c := by
      unfold group_rows
      rw [List.mem_filter, decide_eq_true_eq]
      exact ⟨hr, hrc⟩
    exact List.ne_nil_of_mem this
  · intro c
    exact round2_close (group_total_premiums rows c)

/-- Witness for C7 amended: a concrete one-row table with a present
premium, whose unique group counts its one non-null premium cell and is
non-empty. -/
theorem aggregation_partitions_rows_witness :
    ((distinct_categories [⟨30, 50, 700, 0, "No", "Daily", some 100⟩]).map
        (fun c => policy_count [⟨30, 50, 700, 0, "No", "Daily", some 100⟩] c)).sum
      = (([⟨30, 50, 700, 0, "No", "Daily", some 100⟩] : List PolicyRecord).filter
          (fun r => r.premiumAmount.isSome)).length
    ∧ group_rows [⟨30, 50, 700, 0, "No", "Daily", some 100⟩] "Low" ≠ [] := by
  have h := aggregation_partitions_rows [⟨30, 50, 700, 0, "No", "Daily", some 100⟩]
  exact ⟨h.1, h.2.2.2.1 "Low" (by decide)⟩

end RiskPolicy
